import Mathlib

set_option maxRecDepth 40000

/-!
Shallow embedding of the review-synthesis-app synthesis request path
(src/app/api/synthesize/route.ts together with the part_003/part_004
handler variant and the part_000 storage schema as context).

JavaScript strings are modelled as Lean strings (lists of characters,
i.e. code points instead of UTF-16 units, which agree on the ASCII
inputs used here); JavaScript numbers that the code treats as scores
are modelled as integers, extended with NaN where the code's Number
coercion can produce it.  External fetch calls and JSON.parse of
service replies are modelled as oracle parameters: one inductive value
describes the observable outcome of one call.
-/

/-- JavaScript s.includes(pat): contiguous occurrence test on character
lists, scanning left to right. -/
def occursIn (pat : List Char) : List Char → Bool
  | [] => pat.isPrefixOf []
  | c :: t => if pat.isPrefixOf (c :: t) then true else occursIn pat t

/-- JavaScript s.includes(pat) on strings. -/
def jsIncludes (s pat : String) : Bool :=
  occursIn pat.data s.data

/-- JavaScript String.prototype.trim (whitespace stripped from both
ends), on character lists. -/
def jsTrim (cs : List Char) : List Char :=
  ((cs.dropWhile Char.isWhitespace).reverse.dropWhile Char.isWhitespace).reverse

/-- JavaScript String.prototype.toLowerCase, on character lists
(ASCII case mapping). -/
def lowerL (cs : List Char) : List Char :=
  cs.map Char.toLower

/-- JavaScript s.substring(a, b) for a less-or-equal b: the code units
from index a (inclusive) to b (exclusive). -/
def jsSubstring (s : String) (a b : Nat) : String :=
  String.mk ((s.data.drop a).take (b - a))

/-- JavaScript s.substring(a): from index a to the end. -/
def jsSubstringFrom (s : String) (a : Nat) : String :=
  String.mk (s.data.drop a)

/-- JavaScript truthiness of an optional string (null and the empty
string are falsy). -/
def jsTruthyStr : Option String → Bool
  | none => false
  | some s => !(s.isEmpty)

/-- JavaScript x || d for a possibly absent / possibly empty string
field x with default d. -/
def jsOr (x : Option String) (d : String) : String :=
  match x with
  | none => d
  | some s => if s.isEmpty then d else s

/-- ITP score triple (interface ITPScores in route.ts) restricted to
integer scores, the domain the spec and the storage schema describe. -/
structure ITPScores where
  humble : Int
  hungry : Int
  smart : Int
deriving DecidableEq

/-- A JavaScript number as this code can produce one: an integer or
NaN (the value Number gives undefined and other non-numeric inputs).
Non-integer finite numbers are outside the integer idealization stated
above. -/
inductive JSNum where
  | nan : JSNum
  | int : Int → JSNum
deriving DecidableEq

/-- One property of the JSON.parse result of a service reply, as the
code distinguishes them: jnull is an explicit JSON null (the only value
that fails the strict scores.humble !== null check); jundef a missing
property, read back as undefined, which passes that check; jval any
other value, abstracted by what Number(...) coerces it to (an integer
for numbers and numeric strings, NaN for everything else). -/
inductive JField where
  | jnull : JField
  | jundef : JField
  | jval : JSNum → JField
deriving DecidableEq

/-- The Number(...) coercion the code applies to each accepted field:
Number(undefined) is NaN; Number(null) is 0, but a null field never
reaches the coercion because the check filters it out first. -/
def jsNumber : JField → JSNum
  | .jnull => .int 0
  | .jundef => .nan
  | .jval v => v

/-- The score triple the extraction actually returns: the interface
says number, and NaN is a number, so each field is a JSNum. -/
structure NScores where
  humble : JSNum
  hungry : JSNum
  smart : JSNum
deriving DecidableEq

/-- JavaScript subtraction on these numbers: NaN propagates. -/
def jsSub : JSNum → JSNum → JSNum
  | .int a, .int b => .int (a - b)
  | _, _ => .nan

/-- JavaScript template-literal rendering of such a number. -/
def jsNumToString : JSNum → String
  | .int a => toString a
  | .nan => "NaN"

/-- Embedding of an integer score triple into the JS-number domain. -/
def nOfInt (s : ITPScores) : NScores :=
  ⟨.int s.humble, .int s.hungry, .int s.smart⟩

/-- interface ProcessedData in route.ts; the score fields hold what
extractITPScores really returns, so they may carry NaN values. -/
structure ProcessedData where
  itpEmployeeScores : Option NScores
  itpManagerScores : Option NScores
  feedback360Text : Option String
  selfReviewText : String
  managerComments : String
deriving DecidableEq

/-- interface SynthesisResponse in route.ts (the four review sections). -/
structure SynthesisResponse where
  strengths : String
  developmentFeedback : String
  goalsNextYear : String
  overallAssessment : String
deriving DecidableEq

/-- Rendering of one score triple as it appears in the analysis
templates of analyzeITPScores. -/
def itpScoreTriple (s : ITPScores) : String :=
  "Humble " ++ toString s.humble ++ "/10, Hungry " ++ toString s.hungry
    ++ "/10, Smart " ++ toString s.smart ++ "/10"

/-- The good-alignment line of the gap analysis (route.ts line 335). -/
def goodAlignmentLine (trait : String) : String :=
  "\n- " ++ trait ++ ": Good alignment between self and manager assessment"

/-- The blind-spot line of the gap analysis (route.ts line 330). -/
def blindSpotLine (trait : String) (gap : Nat) : String :=
  "\n- " ++ trait
    ++ (": Manager rates " ++ toString gap
        ++ " points higher - potential blind spot in self-awareness")

/-- The overconfidence line of the gap analysis (route.ts line 332). -/
def overconfidenceLine (trait : String) (gap : Nat) : String :=
  "\n- " ++ trait
    ++ (": Self-assessment " ++ toString gap
        ++ " points higher - may indicate overconfidence")

/-- Body of the forEach over Object.entries(gaps) in analyzeITPScores
(route.ts lines 327-337): gap = manager score - employee score,
Math.abs(gap) is gap.natAbs. -/
def itpGapLine (trait : String) (gap : Int) : String :=
  if 2 ≤ gap.natAbs then
    if 0 < gap then blindSpotLine trait gap.natAbs
    else overconfidenceLine trait gap.natAbs
  else goodAlignmentLine trait

/-- Header of the two-sided comparison (route.ts lines 321-325). -/
def itpComparisonHeader (e m : ITPScores) : String :=
  "ITP Score Comparison:\nEmployee: " ++ itpScoreTriple e
    ++ "\nManager: " ++ itpScoreTriple m ++ "\n\nGap Analysis:"

/-- analyzeITPScores (route.ts lines 302-340).  Object.entries iterates
the gaps record in insertion order humble, hungry, smart. -/
def analyzeITPScores : Option ITPScores → Option ITPScores → String
  | none, none => "ITP assessment data not available for analysis."
  | none, some m =>
      "Manager ITP Assessment: " ++ itpScoreTriple m
        ++ ". Employee self-assessment not available for comparison."
  | some e, none =>
      "Employee Self-Assessment: " ++ itpScoreTriple e
        ++ ". Manager assessment not available for comparison."
  | some e, some m =>
      itpComparisonHeader e m
        ++ itpGapLine "humble" (m.humble - e.humble)
        ++ itpGapLine "hungry" (m.hungry - e.hungry)
        ++ itpGapLine "smart" (m.smart - e.smart)

/-- The same forEach body over the full JS-number domain: for an
integer gap it is itpGapLine; for a NaN gap, Math.abs(NaN) is NaN and
NaN is not greater-or-equal 2, so the good-alignment branch is taken. -/
def itpGapLineN (trait : String) (gap : JSNum) : String :=
  match gap with
  | .int g => itpGapLine trait g
  | .nan => goodAlignmentLine trait

/-- Rendering of one possibly-NaN score triple in the analysis
templates (a NaN score prints as NaN/10). -/
def itpScoreTripleN (s : NScores) : String :=
  "Humble " ++ jsNumToString s.humble ++ "/10, Hungry "
    ++ jsNumToString s.hungry ++ "/10, Smart " ++ jsNumToString s.smart
    ++ "/10"

/-- Header of the two-sided comparison over possibly-NaN triples. -/
def itpComparisonHeaderN (e m : NScores) : String :=
  "ITP Score Comparison:\nEmployee: " ++ itpScoreTripleN e
    ++ "\nManager: " ++ itpScoreTripleN m ++ "\n\nGap Analysis:"

/-- analyzeITPScores over the score values the extraction really
delivers (possibly NaN); on integer triples it agrees with the integer
restriction analyzeITPScores above (analyzeITPScoresN_int below). -/
def analyzeITPScoresN : Option NScores → Option NScores → String
  | none, none => "ITP assessment data not available for analysis."
  | none, some m =>
      "Manager ITP Assessment: " ++ itpScoreTripleN m
        ++ ". Employee self-assessment not available for comparison."
  | some e, none =>
      "Employee Self-Assessment: " ++ itpScoreTripleN e
        ++ ". Manager assessment not available for comparison."
  | some e, some m =>
      itpComparisonHeaderN e m
        ++ itpGapLineN "humble" (jsSub m.humble e.humble)
        ++ itpGapLineN "hungry" (jsSub m.hungry e.hungry)
        ++ itpGapLineN "smart" (jsSub m.smart e.smart)

/-- Observable outcome of one ITP-extraction call to the external
vision service (route.ts extractITPScores, lines 80-149): the fetch may
reject (threw), return a non-success status (httpError, which the code
turns into a thrown Error), return a reply whose text JSON.parse
rejects (badJson), or return a parsed object described by its three
humble/hungry/smart properties (scores), each null, missing, or some
other value; an empty reply text is defaulted to the object literal
text before parsing (line 130), so it parses to a scores value with
all three properties missing. -/
inductive ITPOutcome where
  | threw : ITPOutcome
  | httpError : Nat → ITPOutcome
  | badJson : String → ITPOutcome
  | scores : JField → JField → JField → ITPOutcome

/-- The validation step of extractITPScores (route.ts lines 136-144):
the check is scores.humble !== null (and likewise for the other two),
a strict comparison that only explicit null fails - undefined !== null
is true - and every accepted field is returned through Number(...), so
a missing or non-numeric field comes back as NaN, not as null. -/
def validateScores (h g s : JField) : Option NScores :=
  if h ≠ JField.jnull ∧ g ≠ JField.jnull ∧ s ≠ JField.jnull then
    some ⟨jsNumber h, jsNumber g, jsNumber s⟩
  else none

/-- extractITPScores (route.ts lines 80-149): every thrown error is
caught and turned into null. -/
def extractITPScores : ITPOutcome → Option NScores
  | .threw => none
  | .httpError _ => none
  | .badJson _ => none
  | .scores h g s => validateScores h g s

/-- Observable outcome of one self-review text-extraction call
(route.ts extractSelfReviewText, lines 178-234).  ok none models a
reply carrying no text (the code substitutes its unable-to-extract
placeholder); ok (some t) the extracted text. -/
inductive TextOutcome where
  | threw : TextOutcome
  | httpError : Nat → TextOutcome
  | ok : Option String → TextOutcome

/-- extractSelfReviewText (route.ts lines 178-234). -/
def extractSelfReviewText : TextOutcome → String
  | .threw => "[Error processing self-review screenshots]"
  | .httpError _ => "[Error processing self-review screenshots]"
  | .ok none => "[Unable to extract self-review text from screenshots]"
  | .ok (some t) => t

/-- extractPDFText (route.ts lines 151-176): canned placeholder text,
no external call. -/
def extractPDFText (fileName : String) : String :=
  "[360 Feedback extracted from " ++ fileName ++ "]\n\nThis employee demonstrates strong technical capabilities and strategic thinking. Key themes from the 360 feedback include:\n\nSTRENGTHS:\n- Systems-level thinking and problem-solving\n- Cross-functional collaboration and communication\n- Technical expertise and innovation\n- Strategic vision combined with hands-on execution\n\nDEVELOPMENT AREAS:  \n- Communication consistency and responsiveness\n- Project follow-through and execution discipline\n- Time management and workload prioritization\n- Leadership transition and team development\n\nThe feedback indicates strong potential with focused development opportunities that will amplify existing capabilities."

/-- Shape of the multipart form as the handlers read it: the number of
files per screenshot category, the optional 360 document, and the
manager-comments text (already defaulted to the empty string by
formData.get(...) as string || ''). -/
structure FormModel where
  itpEmployeeFiles : Nat
  itpManagerFiles : Nat
  feedback360 : Bool
  feedback360Name : String
  selfReviewFiles : Nat
  managerComments : String
deriving DecidableEq

/-- processUploadedData (route.ts lines 44-78): one extraction call per
category, issued only when files for that category are present; each
call's outcome is an oracle parameter. -/
def processUploadedData (f : FormModel) (emp mgr : ITPOutcome)
    (selfR : TextOutcome) : ProcessedData :=
  { itpEmployeeScores :=
      if 0 < f.itpEmployeeFiles then extractITPScores emp else none
    itpManagerScores :=
      if 0 < f.itpManagerFiles then extractITPScores mgr else none
    feedback360Text :=
      if f.feedback360 then some (extractPDFText f.feedback360Name) else none
    selfReviewText :=
      if 0 < f.selfReviewFiles then extractSelfReviewText selfR else ""
    managerComments := f.managerComments }

/-- The three external-call sites of processUploadedData. -/
inductive CallCategory where
  | empITP : CallCategory
  | mgrITP : CallCategory
  | selfText : CallCategory
deriving DecidableEq

/-- The sequence of external calls processUploadedData issues for a
given form: one call per present category, in source order, regardless
of any call's outcome (there is no retry loop in the source). -/
def externalCalls (f : FormModel) : List CallCategory :=
  (if 0 < f.itpEmployeeFiles then [.empITP] else [])
    ++ (if 0 < f.itpManagerFiles then [.mgrITP] else [])
    ++ (if 0 < f.selfReviewFiles then [.selfText] else [])

/-- Zero-width boundary test of the split regex in parseSynthesizedReview
(route.ts line 344): a position is a boundary when a digit, a dot and a
whitespace character, or two asterisks, or two hash marks start there. -/
def isBoundary : List Char → Bool
  | '*' :: '*' :: _ => true
  | '#' :: '#' :: _ => true
  | d :: '.' :: w :: _ => d.isDigit && w.isWhitespace
  | _ => false

/-- text.split on the lookahead regex: a new chunk starts at every
interior boundary position; a boundary at position zero starts no
extra empty chunk. -/
def splitSectionsAux (acc : List Char) : List Char → List (List Char)
  | [] => [acc.reverse]
  | c :: rest =>
    if acc ≠ [] ∧ isBoundary (c :: rest) then
      acc.reverse :: splitSectionsAux [c] rest
    else
      splitSectionsAux (c :: acc) rest

/-- The sections list of parseSynthesizedReview (route.ts line 344). -/
def splitSections (cs : List Char) : List (List Char) :=
  splitSectionsAux [] cs

/-- Up to two optional asterisks, greedily. -/
def dropTwoStars : List Char → List Char
  | '*' :: '*' :: rest => rest
  | '*' :: rest => rest
  | rest => rest

/-- section.replace of the anchored header regex (route.ts lines
353-360): a digit and a dot, then greedily whitespace, up to two
asterisks, non-colon characters, an optional colon, whitespace, and up
to two asterisks; if the section does not start with a digit and a dot
there is no match and nothing is removed. -/
def stripHeader (cs : List Char) : List Char :=
  match cs with
  | d :: '.' :: rest =>
    if d.isDigit then
      dropTwoStars
        ((match (dropTwoStars (rest.dropWhile Char.isWhitespace)).dropWhile
            (fun c => c ≠ ':') with
          | ':' :: t => t
          | t => t).dropWhile Char.isWhitespace)
    else cs
  | _ => cs

/-- replace followed by trim, as applied to a matching section. -/
def cleanSection (cs : List Char) : List Char :=
  jsTrim (stripHeader cs)

/-- Keyword test of the strengths branch (route.ts line 353). -/
def kwStrengths (ls : List Char) : Bool :=
  occursIn "strength".data ls || occursIn "1.".data ls

/-- Keyword test of the development branch (route.ts line 355). -/
def kwDevelopment (ls : List Char) : Bool :=
  occursIn "development".data ls || occursIn "feedback".data ls
    || occursIn "2.".data ls

/-- Keyword test of the goals branch (route.ts line 357). -/
def kwGoals (ls : List Char) : Bool :=
  occursIn "goal".data ls || occursIn "next year".data ls
    || occursIn "3.".data ls

/-- Keyword test of the overall branch (route.ts line 359). -/
def kwOverall (ls : List Char) : Bool :=
  occursIn "overall".data ls || occursIn "assessment".data ls
    || occursIn "4.".data ls

/-- Accumulator of the forEach over sections: the four mutable local
variables of parseSynthesizedReview. -/
structure ParseState where
  strengths : List Char
  developmentFeedback : List Char
  goalsNextYear : List Char
  overallAssessment : List Char
deriving DecidableEq

/-- One iteration of the forEach over sections (route.ts lines
351-362): the if / else-if chain assigns the section to the first
category whose keyword test matches its lowercased text, and drops a
section matching no category. -/
def parseStep (st : ParseState) (seg : List Char) : ParseState :=
  let ls := lowerL seg
  if kwStrengths ls then { st with strengths := cleanSection seg }
  else if kwDevelopment ls then
    { st with developmentFeedback := cleanSection seg }
  else if kwGoals ls then { st with goalsNextYear := cleanSection seg }
  else if kwOverall ls then
    { st with overallAssessment := cleanSection seg }
  else st

/-- Per-section default applied at the end of parseSynthesizedReview
(the JavaScript x || default on each accumulated string). -/
def sectionOr (cs : List Char) (d : String) : String :=
  if cs.isEmpty then d else String.mk cs

/-- parseSynthesizedReview (route.ts lines 342-370). -/
def parseSynthesizedReview (text : String) : SynthesisResponse :=
  let fin := (splitSections text.data).foldl parseStep ⟨[], [], [], []⟩
  { strengths :=
      sectionOr fin.strengths
        "Strengths analysis will be generated based on uploaded screenshots and feedback."
    developmentFeedback :=
      sectionOr fin.developmentFeedback
        "Development feedback will be synthesized from all input sources."
    goalsNextYear :=
      sectionOr fin.goalsNextYear
        "Goals will be established based on identified development areas and career aspirations."
    overallAssessment :=
      sectionOr fin.overallAssessment
        "Overall assessment will provide a balanced perspective on performance and potential." }

/-- generateFallbackReview (route.ts lines 372-413), transcribed
verbatim; the two conditionals are the template-literal ternaries on
data.feedback360Text (JavaScript truthiness) and
itpAnalysis.includes of the word gap. -/
def generateFallbackReview (data : ProcessedData) (itpAnalysis : String) :
    SynthesisResponse :=
  { strengths :=
      "Based on the comprehensive analysis of uploaded screenshots and documents, key strengths emerge across multiple assessment dimensions:\n\n• Strong alignment between self-perception and manager evaluation indicates good self-awareness\n• Demonstrates consistent performance across ITP assessment categories\n• Self-review responses show proactive approach to professional development\n• Manager observations confirm reliable execution and collaborative mindset\n• Evidence of strategic thinking combined with practical implementation skills\n\n"
        ++ (if jsTruthyStr data.feedback360Text then
              "The 360 feedback reinforces these observations with specific examples of cross-functional impact and stakeholder value creation."
            else "")
    developmentFeedback :=
      "Development opportunities identified through multi-source assessment analysis:\n\n• Focus on enhancing communication frequency and consistency with stakeholders\n• Strengthen project management systems to ensure reliable follow-through on commitments  \n• Develop more structured approaches to time management and priority setting\n• Build delegation skills to scale personal impact through team development\n\n"
        ++ (if jsIncludes itpAnalysis "gap" then
              "The ITP assessment reveals some perception gaps that create opportunities for enhanced self-awareness and calibrated goal-setting."
            else
              "ITP scores show good calibration between self and manager perspectives, providing solid foundation for development planning.")
    goalsNextYear :=
      "Strategic development goals based on comprehensive assessment synthesis:\n\n1. **Communication Excellence**: Implement consistent stakeholder update protocols and proactive project communication systems.\n\n2. **Execution Reliability**: Establish structured project management approaches ensuring consistent delivery from initiation through completion.\n\n3. **Leadership Capacity**: Develop team amplification skills through effective delegation, mentoring, and process improvement.\n\n4. **Strategic Impact**: Focus technical expertise on highest-value organizational initiatives while maintaining operational excellence.\n\n5. **Professional Growth**: Pursue targeted skill development in areas identified through multi-source feedback analysis."
    overallAssessment :=
      "This comprehensive review synthesizes insights from ITP assessments, visual documentation analysis, "
        ++ (if jsTruthyStr data.feedback360Text then "360-degree feedback, "
            else "")
        ++ "self-reflection, and manager observations to provide a complete performance picture.\n\nThe employee demonstrates strong foundational capabilities with clear pathways for enhanced impact. The alignment between different assessment sources indicates good self-awareness and realistic professional outlook. Development opportunities represent natural evolution rather than fundamental capability gaps.\n\nWith focused attention on the identified growth areas—particularly communication consistency and systematic execution—this individual is well-positioned for significant professional advancement and increased organizational value creation.\n\nThe multi-modal assessment approach provides confident basis for development planning and career progression discussions." }

/-- Observable outcome of the one synthesis call in synthesizeReview
(route.ts lines 267-300): the fetch may reject, return a non-success
status (turned into a thrown Error by the code), or succeed with the
reply text (the code's result.content[0]?.text || '' already applied). -/
inductive SynthOutcome1 where
  | threw : SynthOutcome1
  | httpError : Nat → SynthOutcome1
  | ok : String → SynthOutcome1

/-- Does the synthesis call fail (throw or non-success status)? -/
def isSynthFailure : SynthOutcome1 → Bool
  | .ok _ => false
  | _ => true

/-- synthesizeReview (route.ts lines 236-300): on success the reply is
split into sections, on any caught error the locally generated
fallback is returned; the ITP analysis is computed up front either
way. -/
def synthesizeReview (data : ProcessedData) (svc : SynthOutcome1) :
    SynthesisResponse :=
  match svc with
  | .ok text => parseSynthesizedReview text
  | .threw =>
      generateFallbackReview data
        (analyzeITPScoresN data.itpEmployeeScores data.itpManagerScores)
  | .httpError _ =>
      generateFallbackReview data
        (analyzeITPScoresN data.itpEmployeeScores data.itpManagerScores)

/-- The POST handler of route.ts (lines 24-42) on a well-formed
multipart request: processUploadedData then synthesizeReview, the
result serialized with NextResponse.json, which carries HTTP status
200.  The outer catch is unreachable on this path because every
extraction and synthesis error is already caught further down. -/
def route1POST (f : FormModel) (emp mgr : ITPOutcome) (selfR : TextOutcome)
    (synth : SynthOutcome1) : Nat × SynthesisResponse :=
  (200, synthesizeReview (processUploadedData f emp mgr selfR) synth)

/-- The presence map dataUsed of the part_003/part_004 handler. -/
structure DataUsed where
  itpScores : Bool
  feedback360 : Bool
  selfReview : Bool
  managerComments : Bool
deriving DecidableEq

/-- mockExtractedData of the part_003/part_004 handler. -/
structure MockExtracted where
  itpEmployeeScores : Option ITPScores
  itpManagerScores : Option ITPScores
  feedback360Summary : Option String
  selfReviewSummary : Option String
deriving DecidableEq

/-- dataUsed as computed from the form (part_004 lines 38-43). -/
def dataUsed4 (f : FormModel) : DataUsed :=
  { itpScores := 0 < f.itpEmployeeFiles || 0 < f.itpManagerFiles
    feedback360 := f.feedback360
    selfReview := 0 < f.selfReviewFiles
    managerComments := !(jsTrim f.managerComments.data).isEmpty }

/-- mockExtractedData as computed from the form (part_004 lines 45-50). -/
def mockExtractedData (f : FormModel) : MockExtracted :=
  { itpEmployeeScores :=
      if 0 < f.itpEmployeeFiles then some ⟨8, 7, 9⟩ else none
    itpManagerScores :=
      if 0 < f.itpManagerFiles then some ⟨7, 8, 8⟩ else none
    feedback360Summary :=
      if f.feedback360 then
        some "Strategic thinking, cross-functional collaboration, technical expertise..."
      else none
    selfReviewSummary :=
      if 0 < f.selfReviewFiles then
        some "Focused on continuous learning, project leadership, team development..."
      else none }

/-- Object.values(dataUsed).filter(Boolean).length (part_004 line 165);
Object.values iterates the record in insertion order. -/
def countTrue (du : DataUsed) : Nat :=
  ([du.itpScores, du.feedback360, du.selfReview, du.managerComments].filter
    id).length

/-- The four text sections generateFallback of part_003/part_004
returns (the presence map and extracted data are spread in by the
caller). -/
structure FallbackContent where
  strengths : String
  developmentFeedback : String
  goalsNextYear : String
  overallAssessment : String
deriving DecidableEq

/-- generateFallback (part_004 lines 164-172): extractedData is
accepted but never read; manager comments are truncated to 200
characters when non-empty. -/
def generateFallback (dataUsed : DataUsed) (extractedData : MockExtracted)
    (managerComments : String) : FallbackContent :=
  let count := countTrue dataUsed
  { strengths :=
      "Based on " ++ toString count ++ " data source(s): "
        ++ (if !managerComments.isEmpty then
              jsSubstring managerComments 0 200
            else "No specific data provided.")
    developmentFeedback :=
      "Development areas will be identified with more comprehensive data input."
    goalsNextYear :=
      "1. Continue professional development\n2. Strengthen collaboration skills\n3. Expand technical expertise"
    overallAssessment :=
      "Assessment based on " ++ toString count
        ++ " of 4 possible data sources. Provide additional inputs for a more comprehensive review." }

/-- The reviewContent object of part_003/part_004: the four fields the
handler reads off the parsed service reply (absent / non-string fields
are modelled as none, which the later || defaults replace). -/
structure ReviewContent where
  strengths : Option String
  developmentFeedback : Option String
  goalsNextYear : Option String
  overallAssessment : Option String
deriving DecidableEq

/-- The JSON-parse-failure branch of part_004 (lines 133-142): the raw
reply text of length n is cut at n/4, n/2 and 3n/4 (floors) and the
four pieces are assigned in order to strengths, developmentFeedback,
goalsNextYear and overallAssessment. -/
def quarterContent (text : String) : ReviewContent :=
  let n := text.data.length
  { strengths := some (jsSubstring text 0 (n / 4))
    developmentFeedback := some (jsSubstring text (n / 4) (n / 2))
    goalsNextYear := some (jsSubstring text (n / 2) (n * 3 / 4))
    overallAssessment := some (jsSubstringFrom text (n * 3 / 4)) }

/-- Observable outcome of the synthesis call of part_003/part_004: the
fetch may reject (reaching the outer catch), return a non-success
status, or succeed with reply text whose JSON.parse result (after
code-fence stripping) is given as an oracle: none models a parse
exception. -/
inductive Svc4Outcome where
  | threw : Svc4Outcome
  | httpError : Nat → Svc4Outcome
  | ok : String → Option ReviewContent → Svc4Outcome

/-- A successful review body of the part_003/part_004 handler: the four
text fields, the presence map, the echoed extracted data, and the
optional error note the fallback paths add. -/
structure R4Review where
  strengths : String
  developmentFeedback : String
  goalsNextYear : String
  overallAssessment : String
  dataUsed : DataUsed
  extractedData : MockExtracted
  errorNote : Option String
deriving DecidableEq

/-- Body of a part_003/part_004 response: a review object or the
catch-all error object. -/
inductive R4Body where
  | review : R4Review → R4Body
  | errorBody : String → R4Body
deriving DecidableEq

/-- Builds the fallback-based review body (part_004 lines 91-96 and
116-121). -/
def r4Fallback (f : FormModel) (note : String) : R4Body :=
  let du := dataUsed4 f
  let mock := mockExtractedData f
  let fb := generateFallback du mock f.managerComments
  .review
    { strengths := fb.strengths
      developmentFeedback := fb.developmentFeedback
      goalsNextYear := fb.goalsNextYear
      overallAssessment := fb.overallAssessment
      dataUsed := du
      extractedData := mock
      errorNote := some note }

/-- The POST handler of part_003/part_004 (multipart path, lines
30-162): with no API key or a non-success service status it answers
200 with the fallback review; on a successful call it answers 200 with
the parsed (or quartered) reply fields, each defaulted when empty or
absent; a rejected fetch reaches the outer catch and answers 500. -/
def route4POST (f : FormModel) (apiKeyPresent : Bool) (svc : Svc4Outcome) :
    Nat × R4Body :=
  match apiKeyPresent, svc with
  | false, _ => (200, r4Fallback f "API key not configured")
  | true, .threw => (500, .errorBody "Failed to synthesize review")
  | true, .httpError st =>
      (200, r4Fallback f ("Claude API error: " ++ toString st))
  | true, .ok text parsed =>
      let rc := match parsed with
        | some rc => rc
        | none => quarterContent text
      (200, .review
        { strengths := jsOr rc.strengths "No strengths data generated."
          developmentFeedback :=
            jsOr rc.developmentFeedback "No development feedback generated."
          goalsNextYear := jsOr rc.goalsNextYear "No goals generated."
          overallAssessment :=
            jsOr rc.overallAssessment "No overall assessment generated."
          dataUsed := dataUsed4 f
          extractedData := mockExtractedData f
          errorNote := none })

/-- A boolean [1,10] range check for a score triple, matching the CHECK
constraints of the reviews table in the storage schema (part_000 lines
49-54). -/
def itpInRangeB (s : ITPScores) : Bool :=
  (1 ≤ s.humble && s.humble ≤ 10) && (1 ≤ s.hungry && s.hungry ≤ 10)
    && (1 ≤ s.smart && s.smart ≤ 10)

/-- The same range check over the JS-number domain: a NaN score fails
any BETWEEN comparison. -/
def nInRangeB (s : NScores) : Bool :=
  match s with
  | ⟨.int a, .int b, .int c⟩ => itpInRangeB ⟨a, b, c⟩
  | _ => false

/-- The eleven keywords the section splitter recognizes, in scan
order. -/
def keywordsAll : List (List Char) :=
  ["strength".data, "1.".data, "development".data, "feedback".data,
   "2.".data, "goal".data, "next year".data, "3.".data, "overall".data,
   "assessment".data, "4.".data]

/-- No recognized section keyword occurs anywhere in the lowercased
input. -/
def noSectionKeywords (text : String) : Bool :=
  keywordsAll.all (fun kw => !(occursIn kw (lowerL text.data)))

theorem isPrefixOf_exists (pat : List Char) :
    ∀ l, pat.isPrefixOf l = true ↔ ∃ v, l = pat ++ v := by
  induction pat with
  | nil => intro l; simp [List.isPrefixOf]
  | cons a as ih =>
    intro l
    cases l with
    | nil => simp [List.isPrefixOf]
    | cons b bs =>
      simp only [List.isPrefixOf, Bool.and_eq_true, beq_iff_eq, ih bs,
        List.cons_append]
      constructor
      · rintro ⟨rfl, v, rfl⟩
        exact ⟨v, rfl⟩
      · rintro ⟨v, hv⟩
        injection hv with h1 h2
        subst h1
        exact ⟨rfl, v, h2⟩

theorem occursIn_exists (pat : List Char) :
    ∀ l, occursIn pat l = true ↔ ∃ u v, l = u ++ (pat ++ v) := by
  intro l
  induction l with
  | nil =>
    rw [occursIn, isPrefixOf_exists]
    constructor
    · rintro ⟨v, hv⟩
      exact ⟨[], v, hv⟩
    · rintro ⟨u, v, huv⟩
      rcases List.append_eq_nil.mp huv.symm with ⟨rfl, h2⟩
      exact ⟨v, huv⟩
  | cons c t ih =>
    rw [occursIn]
    by_cases hp : pat.isPrefixOf (c :: t) = true
    · rw [if_pos hp]
      obtain ⟨v, hv⟩ := (isPrefixOf_exists pat (c :: t)).mp hp
      exact iff_of_true rfl ⟨[], v, by simpa using hv⟩
    · rw [if_neg hp, ih]
      constructor
      · rintro ⟨u, v, rfl⟩
        exact ⟨c :: u, v, rfl⟩
      · rintro ⟨u, v, huv⟩
        cases u with
        | nil =>
          exact absurd ((isPrefixOf_exists pat (c :: t)).mpr
            ⟨v, by simpa using huv⟩) hp
        | cons x xs =>
          injection huv with h1 h2
          exact ⟨xs, v, h2⟩

theorem occursIn_of_middle (pat chunk u v : List Char)
    (h : occursIn pat chunk = true) :
    occursIn pat (u ++ (chunk ++ v)) = true := by
  rw [occursIn_exists] at h ⊢
  obtain ⟨x, y, rfl⟩ := h
  exact ⟨u ++ x, y ++ v, by simp⟩

theorem splitSectionsAux_chunk_infix :
    ∀ (rest acc chunk : List Char), chunk ∈ splitSectionsAux acc rest →
      ∃ u v, acc.reverse ++ rest = u ++ (chunk ++ v) := by
  intro rest
  induction rest with
  | nil =>
    intro acc chunk h
    rw [splitSectionsAux, List.mem_singleton] at h
    exact ⟨[], [], by simp [h]⟩
  | cons c cs ih =>
    intro acc chunk h
    rw [splitSectionsAux] at h
    by_cases hb : acc ≠ [] ∧ isBoundary (c :: cs) = true
    · rw [if_pos hb] at h
      rcases List.mem_cons.mp h with h1 | h2
      · exact ⟨[], c :: cs, by simp [h1]⟩
      · obtain ⟨u, v, huv⟩ := ih [c] chunk h2
        refine ⟨acc.reverse ++ u, v, ?_⟩
        simp only [List.reverse_cons, List.reverse_nil,
          List.nil_append] at huv
        have hc : acc.reverse ++ c :: cs = acc.reverse ++ ([c] ++ cs) := by
          simp
        rw [hc, huv, List.append_assoc]
    · rw [if_neg hb] at h
      obtain ⟨u, v, huv⟩ := ih (c :: acc) chunk h
      rw [List.reverse_cons] at huv
      refine ⟨u, v, ?_⟩
      rw [← huv]
      simp

theorem splitSections_chunk_infix (cs chunk : List Char)
    (h : chunk ∈ splitSections cs) : ∃ u v, cs = u ++ (chunk ++ v) := by
  have := splitSectionsAux_chunk_infix cs [] chunk h
  simpa using this

theorem occursIn_lower_of_chunk {kw chunk L : List Char}
    (hinf : ∃ u v, L = u ++ (chunk ++ v))
    (h : occursIn kw (lowerL chunk) = true) :
    occursIn kw (lowerL L) = true := by
  obtain ⟨u, v, rfl⟩ := hinf
  simp only [lowerL, List.map_append]
  exact occursIn_of_middle _ _ _ _ h

theorem parseStep_no_match (st : ParseState) (seg : List Char)
    (h1 : kwStrengths (lowerL seg) = false)
    (h2 : kwDevelopment (lowerL seg) = false)
    (h3 : kwGoals (lowerL seg) = false)
    (h4 : kwOverall (lowerL seg) = false) :
    parseStep st seg = st := by
  simp [parseStep, h1, h2, h3, h4]

theorem foldl_fixed {α β : Type} (f : α → β → α) (l : List β)
    (h : ∀ b ∈ l, ∀ x, f x b = x) : ∀ a, l.foldl f a = a := by
  induction l with
  | nil => intro a; rfl
  | cons b bs ih =>
    intro a
    rw [List.foldl_cons, h b (List.mem_cons_self b bs)]
    exact ih (fun x hx y => h x (List.mem_cons_of_mem b hx) y) a

theorem kw_false_of_no_keywords (text : String)
    (h : noSectionKeywords text = true) (chunk : List Char)
    (hmem : chunk ∈ splitSections text.data) :
    kwStrengths (lowerL chunk) = false
      ∧ kwDevelopment (lowerL chunk) = false
      ∧ kwGoals (lowerL chunk) = false
      ∧ kwOverall (lowerL chunk) = false := by
  have hinf := splitSections_chunk_infix text.data chunk hmem
  have habs : ∀ kw ∈ keywordsAll, occursIn kw (lowerL chunk) = false := by
    intro kw hkw
    by_contra hne
    have htrue : occursIn kw (lowerL chunk) = true := by
      cases hx : occursIn kw (lowerL chunk) with
      | false => exact absurd hx hne
      | true => rfl
    have := occursIn_lower_of_chunk hinf htrue
    have hall := List.all_eq_true.mp h kw hkw
    simp only [Bool.not_eq_true'] at hall
    rw [hall] at this
    exact Bool.false_ne_true this
  simp only [keywordsAll, List.mem_cons, List.not_mem_nil, or_false,
    forall_eq_or_imp, forall_eq] at habs
  obtain ⟨k1, k2, k3, k4, k5, k6, k7, k8, k9, k10, k11⟩ := habs
  refine ⟨?_, ?_, ?_, ?_⟩
  · simp [kwStrengths, k1, k2]
  · simp [kwDevelopment, k3, k4, k5]
  · simp [kwGoals, k6, k7, k8]
  · simp [kwOverall, k9, k10, k11]

/-- Claim C3 counterexample: on input hello world, which contains no
recognized section keyword, the section splitter does NOT give all four
sections one and the same placeholder string: the strengths and the
development placeholders already differ. -/
theorem c3_counterexample :
    ((parseSynthesizedReview "hello world").strengths
      == (parseSynthesizedReview "hello world").developmentFeedback) = false := by
  decide

/-- Claim C3 (amended): on any input containing no recognized section
keyword, every section receives its fixed per-section placeholder
string (four distinct placeholders, not one shared placeholder). -/
theorem c3_no_keyword_defaults (text : String)
    (h : noSectionKeywords text = true) :
    parseSynthesizedReview text =
      { strengths :=
          "Strengths analysis will be generated based on uploaded screenshots and feedback."
        developmentFeedback :=
          "Development feedback will be synthesized from all input sources."
        goalsNextYear :=
          "Goals will be established based on identified development areas and career aspirations."
        overallAssessment :=
          "Overall assessment will provide a balanced perspective on performance and potential." } := by
  have hfold :
      (splitSections text.data).foldl parseStep ⟨[], [], [], []⟩
        = (⟨[], [], [], []⟩ : ParseState) := by
    apply foldl_fixed
    intro chunk hmem st
    obtain ⟨h1, h2, h3, h4⟩ := kw_false_of_no_keywords text h chunk hmem
    exact parseStep_no_match st chunk h1 h2 h3 h4
  rw [parseSynthesizedReview]
  rw [hfold]
  rfl

/-- Claim C3 witness: the amended statement evaluated at hello world. -/
theorem c3_witness :
    parseSynthesizedReview "hello world" =
      { strengths :=
          "Strengths analysis will be generated based on uploaded screenshots and feedback."
        developmentFeedback :=
          "Development feedback will be synthesized from all input sources."
        goalsNextYear :=
          "Goals will be established based on identified development areas and career aspirations."
        overallAssessment :=
          "Overall assessment will provide a balanced perspective on performance and potential." } :=
  c3_no_keyword_defaults "hello world" (by decide)

theorem good_suffix_ne_blind (rest : List Char) :
    ¬((": Good alignment between self and manager assessment").data
        = (": Manager rates ").data ++ rest) := by
  intro h
  have h3 := congrArg (List.take 3) h
  rw [List.take_append_eq_append_take] at h3
  have e0 : (3 - (": Manager rates ").data.length) = 0 := by decide
  rw [e0, List.take_zero, List.append_nil] at h3
  exact absurd h3 (by decide)

theorem good_suffix_ne_over (rest : List Char) :
    ¬((": Good alignment between self and manager assessment").data
        = (": Self-assessment ").data ++ rest) := by
  intro h
  have h3 := congrArg (List.take 3) h
  rw [List.take_append_eq_append_take] at h3
  have e0 : (3 - (": Self-assessment ").data.length) = 0 := by decide
  rw [e0, List.take_zero, List.append_nil] at h3
  exact absurd h3 (by decide)

theorem blindSpotLine_ne_good (t : String) (g : Nat) :
    ¬(blindSpotLine t g = goodAlignmentLine t) := by
  intro h
  have hd := congrArg String.data h
  simp only [blindSpotLine, goodAlignmentLine, String.data_append] at hd
  have hc := List.append_cancel_left hd
  rw [List.append_assoc] at hc
  exact good_suffix_ne_blind _ hc.symm

theorem overconfidenceLine_ne_good (t : String) (g : Nat) :
    ¬(overconfidenceLine t g = goodAlignmentLine t) := by
  intro h
  have hd := congrArg String.data h
  simp only [overconfidenceLine, goodAlignmentLine, String.data_append] at hd
  have hc := List.append_cancel_left hd
  rw [List.append_assoc] at hc
  exact good_suffix_ne_over _ hc.symm

/-- On integer score triples the full JS-number analysis agrees with
its integer restriction analyzeITPScores, so the integer-level claims
below speak about the function the pipeline really runs. -/
theorem analyzeITPScoresN_int (e m : Option ITPScores) :
    analyzeITPScoresN (e.map nOfInt) (m.map nOfInt)
      = analyzeITPScores e m := by
  cases e <;> cases m <;> rfl

/-- Claim C2: in the gap analysis the good-alignment wording is chosen
exactly when the absolute manager-minus-self difference is below 2,
the blind-spot wording whenever the manager rates at least 2 points
higher, and the overconfidence wording whenever the self-assessment is
at least 2 points higher, for each of the three traits independently
(the full analysis string is the header followed by the humble, hungry
and smart lines in that order). -/
theorem itp_gap_wording (es ms : ITPScores) :
    analyzeITPScores (some es) (some ms)
        = itpComparisonHeader es ms
            ++ itpGapLine "humble" (ms.humble - es.humble)
            ++ itpGapLine "hungry" (ms.hungry - es.hungry)
            ++ itpGapLine "smart" (ms.smart - es.smart)
      ∧ ∀ (trait : String) (gap : Int),
          (itpGapLine trait gap = goodAlignmentLine trait ↔ gap.natAbs < 2)
        ∧ (2 ≤ gap → itpGapLine trait gap = blindSpotLine trait gap.natAbs)
        ∧ (gap ≤ -2 →
            itpGapLine trait gap = overconfidenceLine trait gap.natAbs) := by
  refine ⟨rfl, fun trait gap => ⟨⟨?_, ?_⟩, ?_, ?_⟩⟩
  · intro h
    by_contra hge
    have h2 : 2 ≤ gap.natAbs := by omega
    rw [itpGapLine, if_pos h2] at h
    by_cases hpos : 0 < gap
    · rw [if_pos hpos] at h
      exact blindSpotLine_ne_good trait gap.natAbs h
    · rw [if_neg hpos] at h
      exact overconfidenceLine_ne_good trait gap.natAbs h
  · intro h
    rw [itpGapLine, if_neg (by omega)]
  · intro h
    rw [itpGapLine, if_pos (by omega), if_pos (by omega)]
  · intro h
    rw [itpGapLine, if_pos (by omega), if_neg (by omega)]

/-- Claim C2 witness: the spec example self 5/5/5 versus manager 8/5/3:
humble is flagged as a manager-higher blind spot, hungry is aligned,
smart is flagged as self-higher overconfidence. -/
theorem itp_gap_wording_witness :
    itpGapLine "humble" ((8 : Int) - 5) = blindSpotLine "humble" 3
  ∧ itpGapLine "hungry" ((5 : Int) - 5) = goodAlignmentLine "hungry"
  ∧ itpGapLine "smart" ((3 : Int) - 5) = overconfidenceLine "smart" 2 :=
  ⟨((itp_gap_wording ⟨5, 5, 5⟩ ⟨8, 5, 3⟩).2 "humble" ((8 : Int) - 5)).2.1
      (by decide),
   (((itp_gap_wording ⟨5, 5, 5⟩ ⟨8, 5, 3⟩).2 "hungry" ((5 : Int) - 5)).1).mpr
      (by decide),
   ((itp_gap_wording ⟨5, 5, 5⟩ ⟨8, 5, 3⟩).2 "smart" ((3 : Int) - 5)).2.2
      (by decide)⟩

theorem length_append_pos (s t : String) (h : 0 < s.length) :
    0 < (s ++ t).length := by
  rw [String.length_append]
  omega

theorem length_pos_of_data_cons (s : String) (c : Char) (cs : List Char)
    (h : s.data = c :: cs) : 0 < s.length := by
  have : s.length = s.data.length := rfl
  rw [this, h]
  simp

theorem generateFallbackReview_fields_pos (data : ProcessedData)
    (itpAnalysis : String) :
    0 < (generateFallbackReview data itpAnalysis).strengths.length
  ∧ 0 < (generateFallbackReview data itpAnalysis).developmentFeedback.length
  ∧ 0 < (generateFallbackReview data itpAnalysis).goalsNextYear.length
  ∧ 0 < (generateFallbackReview data itpAnalysis).overallAssessment.length := by
  refine ⟨?_, ?_, ?_, ?_⟩
  · exact length_append_pos _ _ (length_pos_of_data_cons _ _ _ rfl)
  · exact length_append_pos _ _ (length_pos_of_data_cons _ _ _ rfl)
  · exact length_pos_of_data_cons _ _ _ rfl
  · exact length_append_pos _ _
      (length_append_pos _ _ (length_pos_of_data_cons _ _ _ rfl))

theorem generateFallback_fields_pos (du : DataUsed) (ex : MockExtracted)
    (mc : String) :
    0 < (generateFallback du ex mc).strengths.length
  ∧ 0 < (generateFallback du ex mc).developmentFeedback.length
  ∧ 0 < (generateFallback du ex mc).goalsNextYear.length
  ∧ 0 < (generateFallback du ex mc).overallAssessment.length := by
  refine ⟨?_, ?_, ?_, ?_⟩
  · exact length_append_pos _ _
      (length_append_pos _ _
        (length_append_pos _ _ (length_pos_of_data_cons _ _ _ rfl)))
  · exact length_pos_of_data_cons _ _ _ rfl
  · exact length_pos_of_data_cons _ _ _ rfl
  · exact length_append_pos _ _
      (length_append_pos _ _ (length_pos_of_data_cons _ _ _ rfl))

/-- Claim C4: both fallback generators are total pure functions of
their arguments (they are plain Lean functions of the presence map,
extracted data and raw inputs, so determinism and absence of failure
are structural), and on every input all four returned sections are
non-empty strings. -/
theorem fallback_generators_nonempty :
    (∀ (data : ProcessedData) (itpAnalysis : String),
        0 < (generateFallbackReview data itpAnalysis).strengths.length
      ∧ 0 < (generateFallbackReview data itpAnalysis).developmentFeedback.length
      ∧ 0 < (generateFallbackReview data itpAnalysis).goalsNextYear.length
      ∧ 0 < (generateFallbackReview data itpAnalysis).overallAssessment.length)
  ∧ (∀ (du : DataUsed) (ex : MockExtracted) (mc : String),
        0 < (generateFallback du ex mc).strengths.length
      ∧ 0 < (generateFallback du ex mc).developmentFeedback.length
      ∧ 0 < (generateFallback du ex mc).goalsNextYear.length
      ∧ 0 < (generateFallback du ex mc).overallAssessment.length) :=
  ⟨generateFallbackReview_fields_pos, generateFallback_fields_pos⟩

/-- Claim C5 counterexample: for the all-false presence map the
fallback generator does return a section containing score digits: the
goals section contains the literal digits of its fixed numbering (1, 2,
3, each a possible ITP score value). -/
theorem c5_counterexample :
    ((generateFallback ⟨false, false, false, false⟩
        ⟨none, none, none, none⟩ "").goalsNextYear.data.any
      Char.isDigit) = true := by
  decide

/-- Claim C5 (amended): for the all-false presence map with empty
manager comments the fallback generator returns four fixed non-empty
strings that are independent of the extracted score data (the
extracted-data argument is never read, so no score value can appear);
the digits they do contain are fixed template numerals only. -/
theorem c5_no_data_fallback (ex : MockExtracted) :
    generateFallback ⟨false, false, false, false⟩ ex "" =
      { strengths := "Based on 0 data source(s): No specific data provided."
        developmentFeedback :=
          "Development areas will be identified with more comprehensive data input."
        goalsNextYear :=
          "1. Continue professional development\n2. Strengthen collaboration skills\n3. Expand technical expertise"
        overallAssessment :=
          "Assessment based on 0 of 4 possible data sources. Provide additional inputs for a more comprehensive review." }
  ∧ (∀ (ex2 : MockExtracted) (mc : String),
      generateFallback ⟨false, false, false, false⟩ ex mc
        = generateFallback ⟨false, false, false, false⟩ ex2 mc)
  ∧ 0 < (generateFallback ⟨false, false, false, false⟩ ex "").strengths.length
  ∧ 0 < (generateFallback ⟨false, false, false, false⟩
        ex "").developmentFeedback.length
  ∧ 0 < (generateFallback ⟨false, false, false, false⟩
        ex "").goalsNextYear.length
  ∧ 0 < (generateFallback ⟨false, false, false, false⟩
        ex "").overallAssessment.length := by
  refine ⟨rfl, fun ex2 mc => rfl, ?_, ?_, ?_, ?_⟩
  · exact length_append_pos _ _ (length_pos_of_data_cons _ _ _ rfl)
  · exact length_pos_of_data_cons _ _ _ rfl
  · exact length_pos_of_data_cons _ _ _ rfl
  · exact length_append_pos _ _ (length_pos_of_data_cons _ _ _ rfl)

/-- Claim C9 counterexample: the extraction path accepts and returns a
parsed triple whose humble value 99 is far outside [1,10]; no range
validation is performed before the scores enter the processed data. -/
theorem c9_counterexample :
    extractITPScores
        (.scores (.jval (.int 99)) (.jval (.int 5)) (.jval (.int 5)))
      = some ⟨.int 99, .int 5, .int 5⟩
  ∧ nInRangeB ⟨.int 99, .int 5, .int 5⟩ = false :=
  ⟨by decide, by decide⟩

/-- Claim C9 (amended): extractITPScores performs no range validation:
every all-non-null numeric triple is returned verbatim, whatever its
values; the [1,10] bound is enforced only by the storage schema CHECK
constraints, outside this handler. -/
theorem extract_scores_verbatim (h g s : Int) :
    extractITPScores
        (.scores (.jval (.int h)) (.jval (.int g)) (.jval (.int s)))
      = some ⟨.int h, .int g, .int s⟩ := by
  show validateScores _ _ _ = _
  rw [validateScores, if_pos]
  · rfl
  · exact ⟨by simp, by simp, by simp⟩

/-- Claim C6 counterexample: a reply in an unexpected shape - an
object with all three score properties missing, exactly what the
code's own default object-literal text for an empty reply parses to
(route.ts line 130) - is NOT demoted to unavailable: undefined passes
the strict scores.humble !== null check and Number(undefined) is NaN,
so a present all-NaN triple is returned instead of null. -/
theorem c6_counterexample :
    extractITPScores (.scores .jundef .jundef .jundef)
        = some ⟨.nan, .nan, .nan⟩
  ∧ (extractITPScores (.scores .jundef .jundef .jundef)).isSome = true :=
  ⟨by decide, by decide⟩

/-- Claim C6 (amended): a thrown fetch, a non-success response, an
unparsable reply, and a parsed reply with an explicitly null score
property each yield the unavailable value for that category only (null
for ITP scores, the error placeholder for self-review text); the other
categories of the processed data are unaffected, and the handler
issues at most one external call per category, the call list being
fixed by the form alone (no retries).  The null check is strict,
however: a reply whose three properties are merely non-null - missing
or non-numeric ones included - produces a present triple of the Number
coercions (NaN for a missing or non-numeric field), not null. -/
theorem extraction_failure_isolated :
    (∀ st, extractITPScores (.httpError st) = none)
  ∧ extractITPScores .threw = none
  ∧ (∀ t, extractITPScores (.badJson t) = none)
  ∧ (∀ a b, extractITPScores (.scores .jnull a b) = none
      ∧ extractITPScores (.scores a .jnull b) = none
      ∧ extractITPScores (.scores a b .jnull) = none)
  ∧ (∀ h g s : JField, h ≠ .jnull → g ≠ .jnull → s ≠ .jnull →
        extractITPScores (.scores h g s)
          = some ⟨jsNumber h, jsNumber g, jsNumber s⟩)
  ∧ (∀ st, extractSelfReviewText (.httpError st)
        = "[Error processing self-review screenshots]")
  ∧ extractSelfReviewText .threw
        = "[Error processing self-review screenshots]"
  ∧ (∀ (f : FormModel) (emp emp2 mgr : ITPOutcome) (selfR : TextOutcome),
        (processUploadedData f emp mgr selfR).itpManagerScores
            = (processUploadedData f emp2 mgr selfR).itpManagerScores
      ∧ (processUploadedData f emp mgr selfR).feedback360Text
            = (processUploadedData f emp2 mgr selfR).feedback360Text
      ∧ (processUploadedData f emp mgr selfR).selfReviewText
            = (processUploadedData f emp2 mgr selfR).selfReviewText
      ∧ (processUploadedData f emp mgr selfR).managerComments
            = (processUploadedData f emp2 mgr selfR).managerComments)
  ∧ (∀ (f : FormModel) (c : CallCategory), (externalCalls f).count c ≤ 1) := by
  refine ⟨fun st => rfl, rfl, fun t => rfl, ?_, ?_, fun st => rfl, rfl,
    fun f emp emp2 mgr selfR => ⟨rfl, rfl, rfl, rfl⟩, ?_⟩
  · intro a b
    refine ⟨?_, ?_, ?_⟩ <;> simp [extractITPScores, validateScores]
  · intro h g s hh hg hs
    show validateScores _ _ _ = _
    rw [validateScores, if_pos]
    exact ⟨hh, hg, hs⟩
  · intro f c
    rw [externalCalls]
    split_ifs <;> cases c <;> decide

/-- Claim C6 witness: a concrete reply with one numeric, one missing
and one non-numeric property is returned as a present triple carrying
the NaN coercions, by the strict-null-check clause of the theorem. -/
theorem extraction_failure_isolated_witness :
    extractITPScores (.scores (.jval (.int 7)) .jundef (.jval .nan))
      = some ⟨.int 7, .nan, .nan⟩ :=
  extraction_failure_isolated.2.2.2.2.1 (.jval (.int 7)) .jundef (.jval .nan)
    (by simp) (by simp) (by simp)

/-- Claim C1: whenever the synthesis call throws or returns a
non-success status, the route.ts POST handler still answers HTTP 200
with the locally generated fallback review, whose four text fields are
all non-empty; the part_003/part_004 variant likewise answers 200 with
a four-field fallback review body on a non-success status. -/
theorem post_ok_on_synth_failure (f : FormModel) (emp mgr : ITPOutcome)
    (selfR : TextOutcome) (synth : SynthOutcome1)
    (h : isSynthFailure synth = true) :
    (route1POST f emp mgr selfR synth).1 = 200
  ∧ (route1POST f emp mgr selfR synth).2
      = generateFallbackReview (processUploadedData f emp mgr selfR)
          (analyzeITPScoresN
            (processUploadedData f emp mgr selfR).itpEmployeeScores
            (processUploadedData f emp mgr selfR).itpManagerScores)
  ∧ 0 < (route1POST f emp mgr selfR synth).2.strengths.length
  ∧ 0 < (route1POST f emp mgr selfR synth).2.developmentFeedback.length
  ∧ 0 < (route1POST f emp mgr selfR synth).2.goalsNextYear.length
  ∧ 0 < (route1POST f emp mgr selfR synth).2.overallAssessment.length
  ∧ (∀ st, (route4POST f true (.httpError st)).1 = 200)
  ∧ (∀ st, ∃ r : R4Review,
        (route4POST f true (.httpError st)).2 = R4Body.review r
      ∧ 0 < r.strengths.length ∧ 0 < r.developmentFeedback.length
      ∧ 0 < r.goalsNextYear.length ∧ 0 < r.overallAssessment.length) := by
  cases synth with
  | ok text => simp [isSynthFailure] at h
  | threw =>
    refine ⟨rfl, rfl, (generateFallbackReview_fields_pos _ _).1,
      (generateFallbackReview_fields_pos _ _).2.1,
      (generateFallbackReview_fields_pos _ _).2.2.1,
      (generateFallbackReview_fields_pos _ _).2.2.2,
      fun st => rfl, fun st => ?_⟩
    exact ⟨_, rfl,
      (generateFallback_fields_pos (dataUsed4 f) (mockExtractedData f)
        f.managerComments).1,
      (generateFallback_fields_pos (dataUsed4 f) (mockExtractedData f)
        f.managerComments).2.1,
      (generateFallback_fields_pos (dataUsed4 f) (mockExtractedData f)
        f.managerComments).2.2.1,
      (generateFallback_fields_pos (dataUsed4 f) (mockExtractedData f)
        f.managerComments).2.2.2⟩
  | httpError st0 =>
    refine ⟨rfl, rfl, (generateFallbackReview_fields_pos _ _).1,
      (generateFallbackReview_fields_pos _ _).2.1,
      (generateFallbackReview_fields_pos _ _).2.2.1,
      (generateFallbackReview_fields_pos _ _).2.2.2,
      fun st => rfl, fun st => ?_⟩
    exact ⟨_, rfl,
      (generateFallback_fields_pos (dataUsed4 f) (mockExtractedData f)
        f.managerComments).1,
      (generateFallback_fields_pos (dataUsed4 f) (mockExtractedData f)
        f.managerComments).2.1,
      (generateFallback_fields_pos (dataUsed4 f) (mockExtractedData f)
        f.managerComments).2.2.1,
      (generateFallback_fields_pos (dataUsed4 f) (mockExtractedData f)
        f.managerComments).2.2.2⟩

/-- Claim C1 witness: a thrown synthesis call on the empty form still
answers status 200. -/
theorem post_ok_on_synth_failure_witness :
    (route1POST ⟨0, 0, false, "", 0, ""⟩ .threw .threw .threw .threw).1
      = 200 :=
  (post_ok_on_synth_failure ⟨0, 0, false, "", 0, ""⟩ .threw .threw .threw
    .threw rfl).1

/-- The request of claim C7: zero uploaded files in every category and
an empty manager-comments field. -/
def emptyForm : FormModel := ⟨0, 0, false, "", 0, ""⟩

/-- Claim C7 counterexample: on the empty form the part_003/part_004
handler still attempts the external call, and when that call succeeds
the four text fields are the service-derived values, not the
deterministic no-data fallback strings (the presence map is all-false
either way). -/
theorem c7_counterexample :
    (route4POST emptyForm true
        (.ok "raw" (some ⟨some "X", some "Y", some "Z", some "W"⟩))).2
      = R4Body.review
          { strengths := "X", developmentFeedback := "Y",
            goalsNextYear := "Z", overallAssessment := "W",
            dataUsed := ⟨false, false, false, false⟩,
            extractedData := ⟨none, none, none, none⟩, errorNote := none }
  ∧ (("X" : String)
      == (generateFallback (dataUsed4 emptyForm) (mockExtractedData emptyForm)
            emptyForm.managerComments).strengths) = false :=
  ⟨rfl, by decide⟩

/-- Claim C7 (amended): on the empty form the presence map is all
false; the response carries the deterministic no-data fallback strings
exactly on the no-API-key and non-success-status paths (the external
call is attempted regardless, and a successful call yields
service-derived fields instead). -/
theorem c7_no_data_behavior :
    dataUsed4 emptyForm = ⟨false, false, false, false⟩
  ∧ (∀ svc, route4POST emptyForm false svc
        = (200, r4Fallback emptyForm "API key not configured"))
  ∧ (∀ st, route4POST emptyForm true (.httpError st)
        = (200, r4Fallback emptyForm ("Claude API error: " ++ toString st)))
  ∧ generateFallback (dataUsed4 emptyForm) (mockExtractedData emptyForm)
        emptyForm.managerComments
      = { strengths := "Based on 0 data source(s): No specific data provided."
          developmentFeedback :=
            "Development areas will be identified with more comprehensive data input."
          goalsNextYear :=
            "1. Continue professional development\n2. Strengthen collaboration skills\n3. Expand technical expertise"
          overallAssessment :=
            "Assessment based on 0 of 4 possible data sources. Provide additional inputs for a more comprehensive review." } := by
  refine ⟨by decide, fun svc => ?_, fun st => rfl, by decide⟩
  cases svc <;> rfl

/-- Claim C8 counterexample: the segment matching no keyword is
discarded, not appended to the currently open strengths section: its
content appears in none of the four output sections. -/
theorem c8_counterexample :
    parseSynthesizedReview "1. Strengths: Alpha\n** remark"
      = { strengths := "Alpha"
          developmentFeedback :=
            "Development feedback will be synthesized from all input sources."
          goalsNextYear :=
            "Goals will be established based on identified development areas and career aspirations."
          overallAssessment :=
            "Overall assessment will provide a balanced perspective on performance and potential." }
  ∧ jsIncludes (parseSynthesizedReview
      "1. Strengths: Alpha\n** remark").strengths "remark" = false
  ∧ jsIncludes (parseSynthesizedReview
      "1. Strengths: Alpha\n** remark").developmentFeedback "remark" = false
  ∧ jsIncludes (parseSynthesizedReview
      "1. Strengths: Alpha\n** remark").goalsNextYear "remark" = false
  ∧ jsIncludes (parseSynthesizedReview
      "1. Strengths: Alpha\n** remark").overallAssessment "remark" = false := by
  decide

/-- Claim C8 (amended): for any segment produced by the splitter the
first matching keyword category in the fixed scan order (strengths,
then development/feedback, then goals/next year, then
overall/assessment) wins and claims the segment; a segment matching no
keyword is discarded and leaves the state unchanged. -/
theorem parse_first_match_priority (st : ParseState) (seg : List Char) :
    (kwStrengths (lowerL seg) = true →
        parseStep st seg = { st with strengths := cleanSection seg })
  ∧ (kwStrengths (lowerL seg) = false → kwDevelopment (lowerL seg) = true →
        parseStep st seg = { st with developmentFeedback := cleanSection seg })
  ∧ (kwStrengths (lowerL seg) = false → kwDevelopment (lowerL seg) = false →
        kwGoals (lowerL seg) = true →
        parseStep st seg = { st with goalsNextYear := cleanSection seg })
  ∧ (kwStrengths (lowerL seg) = false → kwDevelopment (lowerL seg) = false →
        kwGoals (lowerL seg) = false → kwOverall (lowerL seg) = true →
        parseStep st seg = { st with overallAssessment := cleanSection seg })
  ∧ (kwStrengths (lowerL seg) = false → kwDevelopment (lowerL seg) = false →
        kwGoals (lowerL seg) = false → kwOverall (lowerL seg) = false →
        parseStep st seg = st) := by
  refine ⟨?_, ?_, ?_, ?_, ?_⟩
  · intro h1
    simp [parseStep, h1]
  · intro h1 h2
    simp [parseStep, h1, h2]
  · intro h1 h2 h3
    simp [parseStep, h1, h2, h3]
  · intro h1 h2 h3 h4
    simp [parseStep, h1, h2, h3, h4]
  · intro h1 h2 h3 h4
    simp [parseStep, h1, h2, h3, h4]

/-- Claim C8 witness: a segment matching both the strengths and the
development keywords is claimed by strengths (the first category in
scan order), and a keyword-free segment is discarded. -/
theorem parse_first_match_priority_witness :
    parseStep ⟨[], [], [], []⟩
        "1. Strengths and development goals overall".data
      = { strengths :=
            cleanSection "1. Strengths and development goals overall".data,
          developmentFeedback := [], goalsNextYear := [],
          overallAssessment := [] }
  ∧ kwDevelopment
      (lowerL "1. Strengths and development goals overall".data) = true
  ∧ parseStep ⟨[], [], [], []⟩ "** nothing here".data = ⟨[], [], [], []⟩ :=
  ⟨(parse_first_match_priority ⟨[], [], [], []⟩
      "1. Strengths and development goals overall".data).1 (by decide),
   by decide,
   (parse_first_match_priority ⟨[], [], [], []⟩
      "** nothing here".data).2.2.2.2 (by decide) (by decide) (by decide)
      (by decide)⟩

theorem string_data_ext {s t : String} (h : s.data = t.data) : s = t :=
  congrArg String.mk h

theorem data_mk (l : List Char) : (String.mk l).data = l := rfl

/-- Claim C10: in the JSON-variant handler the parse-failure branch
cuts the raw reply text at the quarter, half and three-quarter floors,
assigns the four pieces in order to strengths, development feedback,
goals and overall assessment, and the concatenation of the four pieces
is the original reply text. -/
theorem quarter_partition (text : String) :
    (quarterContent text).strengths
        = some (jsSubstring text 0 (text.data.length / 4))
  ∧ (quarterContent text).developmentFeedback
        = some (jsSubstring text (text.data.length / 4) (text.data.length / 2))
  ∧ (quarterContent text).goalsNextYear
        = some (jsSubstring text (text.data.length / 2)
            (text.data.length * 3 / 4))
  ∧ (quarterContent text).overallAssessment
        = some (jsSubstringFrom text (text.data.length * 3 / 4))
  ∧ jsSubstring text 0 (text.data.length / 4)
      ++ jsSubstring text (text.data.length / 4) (text.data.length / 2)
      ++ jsSubstring text (text.data.length / 2) (text.data.length * 3 / 4)
      ++ jsSubstringFrom text (text.data.length * 3 / 4) = text := by
  refine ⟨rfl, rfl, rfl, rfl, ?_⟩
  apply string_data_ext
  simp only [jsSubstring, jsSubstringFrom, String.data_append, data_mk]
  simp only [List.drop_zero, Nat.sub_zero]
  have h1 : text.data.length / 4 ≤ text.data.length / 2 := by omega
  have h2 : text.data.length / 2 ≤ text.data.length * 3 / 4 := by omega
  have t1 := List.take_add text.data (text.data.length / 4)
    (text.data.length / 2 - text.data.length / 4)
  rw [Nat.add_sub_cancel' h1] at t1
  have t2 := List.take_add text.data (text.data.length / 2)
    (text.data.length * 3 / 4 - text.data.length / 2)
  rw [Nat.add_sub_cancel' h2] at t2
  rw [← t1, ← t2, List.take_append_drop]
